import Mathlib

/-!
Shallow embedding of the torno feature store (src/torno/core.py and
src/torno/store.py): Python values, the schema validation engine, the
content-addressed version identity, and the store operations, together with
theorems settling the specification claims.

Python dictionaries are modelled as association lists in insertion order
(Python dicts iterate in insertion order); Python datetimes as abstract
Nat ticks supplied explicitly to each operation that calls
datetime.utcnow(); exceptions as Except values, with the store state
returned alongside so that mutations performed before a raise are visible.
-/

/-- A Python value, as used in data payloads, params and metadata.
Floats are represented only as a type tag (no float values occur in any
claim), so the float branch of isinstance never matches. -/
inductive PyVal where
  | none
  | bool (b : Bool)
  | int (n : Int)
  | str (s : String)
  | list (xs : List PyVal)
  | dict (xs : List (String × PyVal))

/-- A Python dict with string keys, in insertion order. -/
abbrev PyDict := List (String × PyVal)

/-- Dictionary lookup: first binding of the key (Python dicts have unique
keys, so modelling with the first match is exact). -/
def lookupDict {α : Type} : List (String × α) → String → Option α
  | [], _ => Option.none
  | (k, v) :: rest, key => if key = k then some v else lookupDict rest key

/-- Python membership test: key in dict. -/
def hasKey {α : Type} (l : List (String × α)) (key : String) : Bool :=
  (lookupDict l key).isSome

/-- Python truthiness of a value (bool(v)). Used to document which branch
checks in the source are truthiness tests rather than None tests. -/
def pyFalsy : PyVal → Bool
  | .none => true
  | .bool b => !b
  | .int n => n == 0
  | .str s => s.isEmpty
  | .list xs => xs.isEmpty
  | .dict xs => xs.isEmpty

/-- The kinds of Python types that the type tags of a Schema can resolve
to through eval() in core.py's namespace. -/
inductive PyType where
  | str | int | float | bool | list | dict
deriving DecidableEq

/-- Models eval(expected_type) at core.py line 51: the tag string is
evaluated in the module namespace, so exactly the builtin type names
resolve; any other string (for example Text or Integer, which are not
defined in core.py) raises NameError, modelled as Option.none. -/
def evalType (tag : String) : Option PyType :=
  if tag = "str" then some .str
  else if tag = "int" then some .int
  else if tag = "float" then some .float
  else if tag = "bool" then some .bool
  else if tag = "list" then some .list
  else if tag = "dict" then some .dict
  else Option.none

/-- Models isinstance(value, ty). Python's bool is a subclass of int, so a
bool value matches the int type as well. -/
def isinstance : PyVal → PyType → Bool
  | .str _, .str => true
  | .bool _, .bool => true
  | .bool _, .int => true
  | .int _, .int => true
  | .list _, .list => true
  | .dict _, .dict => true
  | _, _ => false

/-- The errors Schema.validate can raise: ValueError for missing required
fields, unknown fields and failed custom validators; TypeError for a type
mismatch; NameError when eval() cannot resolve the type tag. -/
inductive ValError where
  | missingField (f : String)
  | unknownField (f : String)
  | typeMismatch (f : String)
  | customFailed (f : String)
  | nameError (tag : String)
deriving DecidableEq

/-- Schema from core.py: fields maps field name to a type-tag string,
validators maps field name to a predicate on the single field value,
required lists the mandatory field names. -/
structure Schema where
  fields : List (String × String)
  validators : List (String × (PyVal → PyVal)) := []
  required : List String := []

/-- First loop of Schema.validate: check every required field is present,
failing on the first missing one in required-list order. -/
def checkRequired (required : List String) (data : PyDict) : Except ValError Unit :=
  match required with
  | [] => .ok ()
  | r :: rest =>
    if hasKey data r then checkRequired rest data
    else .error (.missingField r)

/-- Second loop of Schema.validate, one data item at a time in the data's
iteration (insertion) order: unknown-field check, then type check through
evalType/isinstance, then the custom validator, which fails only when its
result is the literal False (the source tests validator_result is False). -/
def checkFields (s : Schema) : PyDict → Except ValError Unit
  | [] => .ok ()
  | (name, value) :: rest =>
    match lookupDict s.fields name with
    | Option.none => .error (.unknownField name)
    | some tag =>
      match evalType tag with
      | Option.none => .error (.nameError tag)
      | some ty =>
        if isinstance value ty then
          match lookupDict s.validators name with
          | some f =>
            match f value with
            | .bool false => .error (.customFailed name)
            | _ => checkFields s rest
          | Option.none => checkFields s rest
        else .error (.typeMismatch name)

/-- Schema.validate: required fields first, then per-field checks, then
return True. -/
def Schema.validate (s : Schema) (data : PyDict) : Except ValError Bool := do
  checkRequired s.required data
  checkFields s data
  return true

/-- Whether a single data item passes its per-field checks in checkFields
without error (known field, resolvable tag, matching type, and no custom
validator returning the literal False). -/
def entryOk (s : Schema) (name : String) (value : PyVal) : Bool :=
  match lookupDict s.fields name with
  | Option.none => false
  | some tag =>
    match evalType tag with
    | Option.none => false
    | some ty =>
      if isinstance value ty then
        match lookupDict s.validators name with
        | some f =>
          match f value with
          | .bool false => false
          | _ => true
        | Option.none => true
      else false

/-- JSON string escaping for one character (quote and backslash; other
characters pass through, which is all the claims exercise). -/
def escChar (c : Char) : String :=
  if c = '"' then "\\\""
  else if c = '\\' then "\\\\"
  else c.toString

/-- A JSON string literal. -/
def jsonQuote (s : String) : String :=
  "\"" ++ String.join (s.toList.map escChar) ++ "\""

/-- Comma-join with json.dumps' default item separator. -/
def joinComma : List String → String
  | [] => ""
  | [x] => x
  | x :: xs => x ++ ", " ++ joinComma xs

/-- Render one serialized key/value pair with json.dumps' default
key separator. -/
def renderPair (kv : String × String) : String :=
  jsonQuote kv.1 ++ ": " ++ kv.2

/-- Serialized dict items rearranged into sorted-key order, modelling
json.dumps(..., sort_keys=True): items are emitted in ascending key order
(keys are unique in a Python dict, so lookup per sorted key is exact). -/
def sortPairs (l : List (String × String)) : List (String × String) :=
  (List.insertionSort (fun a b => a ≤ b) (l.map Prod.fst)).map
    (fun k => (k, (lookupDict l k).getD ""))

/-- json.dumps(v, sort_keys=True) over the embedded Python values: null,
true/false, plain integers, quoted strings, arrays, and objects with keys
sorted at every nesting level. -/
def pyToJson : PyVal → String
  | .none => "null"
  | .bool b => if b then "true" else "false"
  | .int n => toString n
  | .str s => jsonQuote s
  | .list xs => "[" ++ joinComma (xs.attach.map (fun a => pyToJson a.1)) ++ "]"
  | .dict xs =>
    "\x7b" ++
      joinComma ((sortPairs (xs.attach.map (fun a => (a.1.1, pyToJson a.1.2)))).map renderPair)
    ++ "\x7d"
decreasing_by
  · have h := List.sizeOf_lt_of_mem a.2
    simp only [PyVal.list.sizeOf_spec]
    omega
  · have h := List.sizeOf_lt_of_mem a.2
    have h2 : sizeOf a.1.2 < sizeOf a.1 := by
      obtain ⟨x, y⟩ := a.1
      simp only [Prod.mk.sizeOf_spec]
      omega
    simp only [PyVal.dict.sizeOf_spec]
    omega

/-- Stand-in for hashlib.sha256(...).hexdigest(): a fixed deterministic
function from the serialized byte string to 64 hex characters. The claims
about version identity depend only on the digest being a deterministic
function of its input, so the internal compression is modelled by a simple
fold rather than the SHA-256 rounds. -/
def sha256Hex (s : String) : String :=
  let h := s.toList.foldl (fun acc c => (acc * 131 + c.toNat) % (2 ^ 256)) 7
  String.mk ((Nat.toDigits 16 (2 ^ 256 + h)).drop 1)

/-- EnrichmentStatus from core.py. -/
inductive EnrichmentStatus where
  | draft | published | deprecated
deriving DecidableEq

/-- JobStatus from core.py. -/
inductive JobStatus where
  | pending | running | completed | failed | cancelled
deriving DecidableEq

/-- EnrichmentVersionConfig from core.py: the semantic configuration of a
version. -/
structure EnrichmentVersionConfig where
  prompt : String
  model : String
  params : PyDict
  input_schema : Schema
  output_schema : Schema
  metadata : Option PyDict := Option.none

/-- EnrichmentVersion from core.py. Timestamps are abstract Nat ticks. -/
structure EnrichmentVersion where
  version_id : String
  created_at : Nat
  prompt_template : String
  model_id : String
  parameters : PyDict
  input_schema : Schema
  output_schema : Schema
  metadata : PyDict := []

/-- The version_data dict built in EnrichmentVersion.create (core.py lines
87-94), as a Python value in the source's insertion order: prompt, model,
params, the fields of each schema (only the fields, not validators or
required), and metadata defaulting to an empty dict. The creation time is
deliberately not part of it. -/
def versionDataVal (config : EnrichmentVersionConfig) : PyVal :=
  .dict
    [ ("prompt", .str config.prompt),
      ("model", .str config.model),
      ("params", .dict config.params),
      ("input_schema", .dict (config.input_schema.fields.map (fun kv => (kv.1, .str kv.2)))),
      ("output_schema", .dict (config.output_schema.fields.map (fun kv => (kv.1, .str kv.2)))),
      ("metadata", .dict (config.metadata.getD [])) ]

/-- version_id computation from core.py lines 96-98:
sha256(json.dumps(version_data, sort_keys=True)).hexdigest()[:12]. -/
def versionIdOf (config : EnrichmentVersionConfig) : String :=
  (sha256Hex (pyToJson (versionDataVal config))).take 12

/-- EnrichmentVersion.create from core.py: hashes the configuration into
the version_id and stamps the current time (passed as now) as created_at. -/
def EnrichmentVersion.create (config : EnrichmentVersionConfig) (now : Nat) :
    EnrichmentVersion :=
  { version_id := versionIdOf config
    created_at := now
    prompt_template := config.prompt
    model_id := config.model
    parameters := config.params
    input_schema := config.input_schema
    output_schema := config.output_schema
    metadata := config.metadata.getD [] }

/-- EnrichmentDefinition from core.py. -/
structure EnrichmentDefinition where
  name : String
  description : String
  versions : List EnrichmentVersion := []
  status : EnrichmentStatus := .draft
  metadata : PyDict := []
  created_at : Nat := 0
  updated_at : Nat := 0

/-- add_version: append and bump updated_at. -/
def EnrichmentDefinition.add_version (d : EnrichmentDefinition)
    (v : EnrichmentVersion) (now : Nat) : EnrichmentDefinition :=
  { d with versions := d.versions ++ [v], updated_at := now }

/-- get_version: linear scan for the first version with the given id. -/
def EnrichmentDefinition.get_version (d : EnrichmentDefinition)
    (version_id : String) : Option EnrichmentVersion :=
  d.versions.find? (fun v => v.version_id == version_id)

/-- get_latest_version: versions[-1] if versions else None. -/
def EnrichmentDefinition.get_latest_version (d : EnrichmentDefinition) :
    Option EnrichmentVersion :=
  d.versions.getLast?

/-- EnrichmentJob from core.py. -/
structure EnrichmentJob where
  job_id : String
  dataset_id : String
  enrichment_name : String
  enrichment_version : String
  status : JobStatus
  created_at : Nat
  input_data : PyDict
  result : Option PyDict := Option.none
  error : Option String := Option.none
  started_at : Option Nat := Option.none
  completed_at : Option Nat := Option.none
  metadata : PyDict := []

/-- EnrichmentJob.create: a fresh PENDING job. The uuid4 job id and the
current time are nondeterministic inputs, passed explicitly. -/
def EnrichmentJob.create (dataset_id enrichment_name enrichment_version : String)
    (input_data : PyDict) (new_job_id : String) (now : Nat) : EnrichmentJob :=
  { job_id := new_job_id
    dataset_id := dataset_id
    enrichment_name := enrichment_name
    enrichment_version := enrichment_version
    status := .pending
    created_at := now
    input_data := input_data }

/-- The exceptions the store operations can raise. valueError-style
failures are modelled structurally; createKwargsTypeError models the
TypeError Python raises at store.py lines 44-51, where
FeatureStore.create_version calls EnrichmentVersion.create with keyword
arguments (prompt=, model=, ...) although core.py line 84 declares create
to accept a single config argument. -/
inductive TornoError where
  | enrichmentExists (name : String)
  | enrichmentNotFound (name : String)
  | versionNotFound (version_id : String)
  | noVersions (name : String)
  | validation (e : ValError)
  | keyError (name : String)
  | createKwargsTypeError
deriving DecidableEq

/-- FeatureSet from core.py (only the parts the store operations touch). -/
structure FeatureSet where
  dataset_id : String
  features : List (String × PyDict) := []
  metadata : PyDict := []
  created_at : Nat := 0
  updated_at : Nat := 0

/-- FeatureStore state from store.py. -/
structure FeatureStore where
  enrichments : List (String × EnrichmentDefinition) := []
  jobs : List EnrichmentJob := []
  features : List (String × FeatureSet) := []

/-- register_enrichment: reject duplicates, otherwise insert a fresh
definition. -/
def FeatureStore.register_enrichment (s : FeatureStore) (name description : String)
    (metadata : Option PyDict) (now : Nat) :
    Except TornoError EnrichmentDefinition × FeatureStore :=
  if hasKey s.enrichments name then (.error (.enrichmentExists name), s)
  else
    let e : EnrichmentDefinition :=
      { name := name, description := description, metadata := metadata.getD [],
        created_at := now, updated_at := now }
    (.ok e, { s with enrichments := s.enrichments ++ [(name, e)] })

/-- FeatureStore.create_version as the source actually behaves: after the
not-found check, store.py lines 44-51 invoke EnrichmentVersion.create with
keyword arguments prompt=, model=, params=, input_schema=, output_schema=,
metadata=, but core.py line 84 defines create(cls, config) with a single
positional config parameter, so Python raises TypeError (unexpected
keyword argument) before any version is constructed; nothing is appended
and the store is unchanged. -/
def FeatureStore.create_version (s : FeatureStore) (enrichment_name : String)
    (prompt model : String) (params : PyDict) (input_schema output_schema : Schema)
    (metadata : Option PyDict) :
    Except TornoError EnrichmentVersion × FeatureStore :=
  if ¬ hasKey s.enrichments enrichment_name then
    (.error (.enrichmentNotFound enrichment_name), s)
  else
    (.error .createKwargsTypeError, s)

/-- Version resolution inside queue_job (store.py lines 65-72): an explicit
truthy version_id is looked up by id, otherwise the latest version is
taken. Note the source tests truthiness (if version_id:), so an empty
string also falls through to the latest-version branch. -/
def resolveVersion (enrichment : EnrichmentDefinition) (enrichment_name : String)
    (version_id : Option String) : Except TornoError EnrichmentVersion :=
  let latest : Except TornoError EnrichmentVersion :=
    match enrichment.get_latest_version with
    | some v => .ok v
    | Option.none => .error (.noVersions enrichment_name)
  match version_id with
  | some vid =>
    if vid.isEmpty then latest
    else
      match enrichment.get_version vid with
      | some v => .ok v
      | Option.none => .error (.versionNotFound vid)
  | Option.none => latest

/-- queue_job from store.py: resolve enrichment and version, validate the
input data against the version's input schema, and only then construct and
append the job. A failure at any earlier point leaves the store unchanged,
since the source performs no mutation before the append. -/
def FeatureStore.queue_job (s : FeatureStore) (dataset_id enrichment_name : String)
    (input_data : PyDict) (version_id : Option String) (new_job_id : String)
    (now : Nat) : Except TornoError EnrichmentJob × FeatureStore :=
  match lookupDict s.enrichments enrichment_name with
  | Option.none => (.error (.enrichmentNotFound enrichment_name), s)
  | some enrichment =>
    match resolveVersion enrichment enrichment_name version_id with
    | .error e => (.error e, s)
    | .ok version =>
      match version.input_schema.validate input_data with
      | .error e => (.error (.validation e), s)
      | .ok _ =>
        let job := EnrichmentJob.create dataset_id enrichment_name
          version.version_id input_data new_job_id now
        (.ok job, { s with jobs := s.jobs ++ [job] })

/-- get_job: first job with the given id. -/
def FeatureStore.get_job (s : FeatureStore) (job_id : String) :
    Option EnrichmentJob :=
  s.jobs.find? (fun j => j.job_id == job_id)

/-- The status step of update_job (store.py lines 104-109): when a status
is supplied, overwrite it, stamping started_at on RUNNING and completed_at
on COMPLETED or FAILED. In Python this mutation happens in place, before
any result validation. -/
def applyStatus (j : EnrichmentJob) (status : Option JobStatus) (now : Nat) :
    EnrichmentJob :=
  match status with
  | Option.none => j
  | some st =>
    let j1 := { j with status := st }
    match st with
    | .running => { j1 with started_at := some now }
    | .completed => { j1 with completed_at := some now }
    | .failed => { j1 with completed_at := some now }
    | _ => j1

/-- The result step of update_job (store.py lines 111-117): when a result
is supplied, look the enrichment up by the job's name (a raw dict index,
raising KeyError if absent), find the job's version, validate the result
against its output schema if the version was found, and store the result.
When the version is not found, the result is stored with no validation. -/
def applyResult (enrichments : List (String × EnrichmentDefinition))
    (j : EnrichmentJob) (result : Option PyDict) :
    Except TornoError EnrichmentJob :=
  match result with
  | Option.none => .ok j
  | some r =>
    match lookupDict enrichments j.enrichment_name with
    | Option.none => .error (.keyError j.enrichment_name)
    | some enrichment =>
      match enrichment.get_version j.enrichment_version with
      | some version =>
        match version.output_schema.validate r with
        | .error e => .error (.validation e)
        | .ok _ => .ok { j with result := some r }
      | Option.none => .ok { j with result := some r }

/-- The error step of update_job (store.py lines 119-120). -/
def applyError (j : EnrichmentJob) (error : Option String) : EnrichmentJob :=
  match error with
  | Option.none => j
  | some e => { j with error := some e }

/-- The whole per-job computation of update_job on the matched job:
status step first (committed immediately, as the Python object is mutated
in place), then result step whose failure aborts with the status mutation
already visible, then error step. Returns the call's outcome and the job
as it is left in the store. -/
def updateSteps (enrichments : List (String × EnrichmentDefinition))
    (status : Option JobStatus) (result : Option PyDict) (error : Option String)
    (now : Nat) (j : EnrichmentJob) :
    Except TornoError (Option EnrichmentJob) × EnrichmentJob :=
  let j1 := applyStatus j status now
  match applyResult enrichments j1 result with
  | .error e => (.error e, j1)
  | .ok j2 =>
    let j3 := applyError j2 error
    (.ok (some j3), j3)

/-- Apply a per-job computation to the first job satisfying p, leaving the
rest of the list untouched; when no job matches, return None and the list
unchanged (update_job returns None for an unknown id). -/
def updateFirst (p : EnrichmentJob → Bool)
    (g : EnrichmentJob → Except TornoError (Option EnrichmentJob) × EnrichmentJob) :
    List EnrichmentJob → Except TornoError (Option EnrichmentJob) × List EnrichmentJob
  | [] => (.ok Option.none, [])
  | j :: rest =>
    if p j then
      let (res, j2) := g j
      (res, j2 :: rest)
    else
      let (res, rest2) := updateFirst p g rest
      (res, j :: rest2)

/-- update_job from store.py: find the first job with the given id (None
if absent), then run the status / result / error steps on it, with any
raise after the status step leaving the status mutation in the store. -/
def FeatureStore.update_job (s : FeatureStore) (job_id : String)
    (status : Option JobStatus) (result : Option PyDict) (error : Option String)
    (now : Nat) : Except TornoError (Option EnrichmentJob) × FeatureStore :=
  let (res, jobs2) := updateFirst (fun j => j.job_id == job_id)
    (updateSteps s.enrichments status result error now) s.jobs
  (res, { s with jobs := jobs2 })

/-- Decidable equality of Except outcomes, for concrete evaluations. -/
instance {ε α : Type} [DecidableEq ε] [DecidableEq α] : DecidableEq (Except ε α) :=
  fun x y =>
    match x, y with
    | .ok a, .ok b =>
      if h : a = b then isTrue (by rw [h]) else isFalse (by intro hc; cases hc; exact h rfl)
    | .error a, .error b =>
      if h : a = b then isTrue (by rw [h]) else isFalse (by intro hc; cases hc; exact h rfl)
    | .ok _, .error _ => isFalse (by intro hc; cases hc)
    | .error _, .ok _ => isFalse (by intro hc; cases hc)

/-! Concrete fixtures used by the claim theorems, mirroring the repository's
tests/conftest.py fixtures. -/

/-- The basic_schema validator from conftest.py,
lambda x: x > 0 if x is not None else True, on the values it can be
applied to (the schema type-checks the field as int first, so only int and
bool values reach it; other branches are unreachable filler). -/
def lengthPositive : PyVal → PyVal := fun v =>
  match v with
  | .none => .bool true
  | .int n => .bool (decide (n > 0))
  | .bool b => .bool b
  | _ => .bool true

/-- basic_schema from conftest.py: str/int fields, text required, a
positivity validator on length. -/
def exSchemaIn : Schema :=
  { fields := [("text", "str"), ("length", "int")]
    required := ["text"]
    validators := [("length", lengthPositive)] }

/-- The output schema from conftest.py's sample_version_config. -/
def exSchemaOut : Schema :=
  { fields := [("key_points", "list"), ("summary", "str")]
    required := ["key_points"] }

/-- The schema of the spec's round-trip example, with the spec's literal
type tags Text and Integer. -/
def specTagSchema : Schema :=
  { fields := [("text", "Text"), ("length", "Integer")], required := ["text"] }

/-- The same schema with the type tags spelled as the Python type names the
repository's fixtures actually use. -/
def pyTagSchema : Schema :=
  { fields := [("text", "str"), ("length", "int")], required := ["text"] }

/-- The spec's round-trip payload. -/
def specData : PyDict := [("text", .str "hello"), ("length", .int 5)]

/-- A validator returning the falsy-but-not-False value 0 for every int. -/
def zeroValidator : PyVal → PyVal := fun v =>
  match v with
  | .int _ => .int 0
  | _ => .bool true

/-- Schema whose length validator returns the falsy value 0. -/
def falsySchema : Schema :=
  { fields := [("text", "str"), ("length", "int")]
    required := ["text"]
    validators := [("length", zeroValidator)] }

/-- Two concrete versions with distinct ids, appended in order v1 then v2. -/
def exVer1 : EnrichmentVersion :=
  { version_id := "v1", created_at := 0, prompt_template := "p1", model_id := "m",
    parameters := [], input_schema := exSchemaIn, output_schema := exSchemaOut }

def exVer2 : EnrichmentVersion :=
  { version_id := "v2", created_at := 1, prompt_template := "p2", model_id := "m",
    parameters := [], input_schema := exSchemaIn, output_schema := exSchemaOut }

/-- An enrichment definition holding versions v1 then v2. -/
def exEnr : EnrichmentDefinition :=
  { name := "test", description := "test enrichment", versions := [exVer1, exVer2] }

/-- A store with the test enrichment registered and no jobs. -/
def exStore : FeatureStore := { enrichments := [("test", exEnr)] }

/-- A pending job targeting version v2 of the test enrichment. -/
def exJob : EnrichmentJob :=
  { job_id := "job-1", dataset_id := "ds", enrichment_name := "test",
    enrichment_version := "v2", status := .pending, created_at := 0,
    input_data := [("text", .str "test text"), ("length", .int 9)] }

/-- The store with the test enrichment and the pending job. -/
def exStoreJ : FeatureStore :=
  { enrichments := [("test", exEnr)], jobs := [exJob] }

/-- A job whose recorded enrichment_version matches no version of the test
enrichment. -/
def exJobGhost : EnrichmentJob :=
  { job_id := "job-2", dataset_id := "ds", enrichment_name := "test",
    enrichment_version := "ghost", status := .pending, created_at := 0,
    input_data := [] }

/-- The store holding the dangling-version job. -/
def exStoreG : FeatureStore :=
  { enrichments := [("test", exEnr)], jobs := [exJobGhost] }

/-- Two version configurations that are equal as Python values: same
prompt, model, params and schema fields, and metadata dicts holding the
same key/value pairs in different insertion order. -/
def cfgA : EnrichmentVersionConfig :=
  { prompt := "Test prompt", model := "test-model",
    params := [("temperature", .int 1)],
    input_schema := exSchemaIn, output_schema := exSchemaOut,
    metadata := some [("a", .int 1), ("b", .int 2)] }

def cfgB : EnrichmentVersionConfig :=
  { prompt := "Test prompt", model := "test-model",
    params := [("temperature", .int 1)],
    input_schema := exSchemaIn, output_schema := exSchemaOut,
    metadata := some [("b", .int 2), ("a", .int 1)] }

/-! Helper lemmas. -/

/-- Two association lists holding the same bindings (a permutation with
unique keys) look up identically. -/
theorem lookupDict_congr_of_perm {α : Type} {l1 l2 : List (String × α)}
    (h : l1.Perm l2) (nd : (l1.map Prod.fst).Nodup) (k : String) :
    lookupDict l1 k = lookupDict l2 k := by
  induction h with
  | nil => rfl
  | cons x l1l2 ih =>
    simp only [List.map_cons, List.nodup_cons] at nd
    obtain ⟨x1, x2⟩ := x
    simp only [lookupDict]
    split
    · rfl
    · exact ih nd.2
  | swap x y l =>
    obtain ⟨x1, x2⟩ := x
    obtain ⟨y1, y2⟩ := y
    simp only [List.map_cons, List.nodup_cons, List.mem_cons] at nd
    have hxy : y1 ≠ x1 := fun hc => nd.1 (Or.inl hc)
    simp only [lookupDict]
    by_cases h1 : k = y1
    · subst h1
      simp [hxy]
    · simp [h1]
  | trans h1 h2 ih1 ih2 =>
    have nd2 := ((h1.map Prod.fst).nodup_iff).mp nd
    exact (ih1 nd).trans (ih2 nd2)

/-- Sorted-key emission is insensitive to the dict's insertion order. -/
theorem sortPairs_congr_of_perm {l1 l2 : List (String × String)}
    (h : l1.Perm l2) (nd : (l1.map Prod.fst).Nodup) :
    sortPairs l1 = sortPairs l2 := by
  have hkeys : (l1.map Prod.fst).Perm (l2.map Prod.fst) := h.map Prod.fst
  have hs1 : List.Sorted (fun a b : String => a ≤ b)
      (List.insertionSort (fun a b => a ≤ b) (l1.map Prod.fst)) :=
    List.sorted_insertionSort _ _
  have hs2 : List.Sorted (fun a b : String => a ≤ b)
      (List.insertionSort (fun a b => a ≤ b) (l2.map Prod.fst)) :=
    List.sorted_insertionSort _ _
  have hsp : (List.insertionSort (fun a b => a ≤ b) (l1.map Prod.fst)).Perm
      (List.insertionSort (fun a b => a ≤ b) (l2.map Prod.fst)) :=
    (List.perm_insertionSort _ _).trans (hkeys.trans (List.perm_insertionSort _ _).symm)
  have hsort := List.eq_of_perm_of_sorted hsp hs1 hs2
  unfold sortPairs
  rw [hsort]
  exact List.map_congr_left (fun k _ => by rw [lookupDict_congr_of_perm h nd k])

/-- Unfolding of the serializer on a dict, with the attach plumbing of the
termination argument removed. -/
theorem pyToJson_dict_eq (xs : List (String × PyVal)) :
    pyToJson (.dict xs) =
      "\x7b" ++
        joinComma ((sortPairs (xs.map (fun kv => (kv.1, pyToJson kv.2)))).map renderPair)
      ++ "\x7d" := by
  rw [pyToJson]
  rw [List.attach_map_val xs (fun kv => (kv.1, pyToJson kv.2))]

/-- json.dumps(..., sort_keys=True) gives equal output on two dicts holding
the same bindings in different insertion order. -/
theorem pyToJson_dict_congr {xs1 xs2 : List (String × PyVal)}
    (h : xs1.Perm xs2) (nd : (xs1.map Prod.fst).Nodup) :
    pyToJson (.dict xs1) = pyToJson (.dict xs2) := by
  rw [pyToJson_dict_eq, pyToJson_dict_eq]
  have hp : (xs1.map (fun kv => (kv.1, pyToJson kv.2))).Perm
      (xs2.map (fun kv => (kv.1, pyToJson kv.2))) := h.map _
  have hnd : ((xs1.map (fun kv => (kv.1, pyToJson kv.2))).map Prod.fst).Nodup := by
    rw [List.map_map]
    exact nd
  rw [sortPairs_congr_of_perm hp hnd]

/-! Claim theorems. -/

/-- C1: two version-creation calls with equal prompt, model, params,
input-schema fields mapping, output-schema fields mapping and metadata
(equal as Python mappings: the same bindings with unique keys, in any
insertion order) compute the same version_id at any two creation times:
the timestamp is excluded from the hashed representation and the identity
is a pure function of the configuration. -/
theorem version_id_pure_of_config (c1 c2 : EnrichmentVersionConfig) (t1 t2 : Nat)
    (hp : c1.prompt = c2.prompt) (hm : c1.model = c2.model)
    (hpar : c1.params.Perm c2.params) (hparnd : (c1.params.map Prod.fst).Nodup)
    (hin : c1.input_schema.fields.Perm c2.input_schema.fields)
    (hinnd : (c1.input_schema.fields.map Prod.fst).Nodup)
    (hout : c1.output_schema.fields.Perm c2.output_schema.fields)
    (houtnd : (c1.output_schema.fields.map Prod.fst).Nodup)
    (hmd : (c1.metadata.getD []).Perm (c2.metadata.getD []))
    (hmdnd : ((c1.metadata.getD []).map Prod.fst).Nodup) :
    (EnrichmentVersion.create c1 t1).version_id =
      (EnrichmentVersion.create c2 t2).version_id := by
  have e1 : pyToJson (.str c1.prompt) = pyToJson (.str c2.prompt) := by rw [hp]
  have e2 : pyToJson (.str c1.model) = pyToJson (.str c2.model) := by rw [hm]
  have e3 : pyToJson (.dict c1.params) = pyToJson (.dict c2.params) :=
    pyToJson_dict_congr hpar hparnd
  have e4 : pyToJson (.dict (c1.input_schema.fields.map (fun kv => (kv.1, PyVal.str kv.2)))) =
      pyToJson (.dict (c2.input_schema.fields.map (fun kv => (kv.1, PyVal.str kv.2)))) := by
    refine pyToJson_dict_congr (hin.map _) ?_
    simpa [List.map_map, Function.comp] using hinnd
  have e5 : pyToJson (.dict (c1.output_schema.fields.map (fun kv => (kv.1, PyVal.str kv.2)))) =
      pyToJson (.dict (c2.output_schema.fields.map (fun kv => (kv.1, PyVal.str kv.2)))) := by
    refine pyToJson_dict_congr (hout.map _) ?_
    simpa [List.map_map, Function.comp] using houtnd
  have e6 : pyToJson (.dict (c1.metadata.getD [])) = pyToJson (.dict (c2.metadata.getD [])) :=
    pyToJson_dict_congr hmd hmdnd
  have hjson : pyToJson (versionDataVal c1) = pyToJson (versionDataVal c2) := by
    unfold versionDataVal
    rw [pyToJson_dict_eq, pyToJson_dict_eq]
    simp only [List.map_cons, List.map_nil]
    rw [e1, e2, e3, e4, e5, e6]
  simp [EnrichmentVersion.create, versionIdOf, hjson]

/-- C1 witness: two concrete configurations whose metadata dicts hold the
same pairs in swapped order, created at times 0 and 5, get the same id. -/
theorem version_id_pure_witness :
    (EnrichmentVersion.create cfgA 0).version_id =
      (EnrichmentVersion.create cfgB 5).version_id := by
  refine version_id_pure_of_config cfgA cfgB 0 5 rfl rfl (List.Perm.refl _) (by decide)
    (List.Perm.refl _) (by decide) (List.Perm.refl _) (by decide) ?_ (by decide)
  exact List.Perm.swap ("b", PyVal.int 2) ("a", PyVal.int 1) []

/-- C3 counterexample: with the claim's literal type tags Text and
Integer, the payload does not validate: eval("Text") raises NameError in
core.py's namespace, so the call fails rather than succeeding. -/
theorem spec_tags_reject :
    specTagSchema.validate specData = .error (.nameError "Text") ∧
      specTagSchema.validate specData ≠ .ok true :=
  ⟨rfl, by decide⟩

/-- C3 amended: validating the payload text=hello, length=5 against the
schema with the type tags spelled as the Python type names str and int
(as the repository's fixtures spell them) and required=[text] succeeds,
returning True. -/
theorem py_tags_accept : pyTagSchema.validate specData = .ok true := rfl

/-- The required-field loop reports the first required name absent from
the data, in required-list order. -/
theorem checkRequired_first_missing (data : PyDict) :
    ∀ (required : List String) (f : String),
      required.find? (fun r => !(hasKey data r)) = some f →
      checkRequired required data = .error (.missingField f) := by
  intro required
  induction required with
  | nil => intro f h; simp [List.find?] at h
  | cons r rest ih =>
    intro f h
    by_cases hk : hasKey data r
    · rw [List.find?_cons] at h
      simp only [hk, Bool.not_true] at h
      unfold checkRequired
      simp only [hk, if_true]
      exact ih f h
    · rw [List.find?_cons] at h
      simp only [hk, Bool.not_false] at h
      unfold checkRequired
      simp only [hk, if_false]
      cases h
      rfl

/-- C6: for every schema and payload, when some required field is missing,
validation fails with a missing-field error naming the first missing
required field, before any unknown-key, type or custom-validator check can
run (the conclusion holds for arbitrary fields/validators, including ones
whose type checks would fail). -/
theorem validate_required_first (s : Schema) (data : PyDict) (f : String)
    (h : s.required.find? (fun r => !(hasKey data r)) = some f) :
    s.validate data = .error (.missingField f) := by
  have hcr := checkRequired_first_missing data s.required f h
  simp only [Schema.validate]
  rw [hcr]
  rfl

/-- C6 witness: data length=5 against the schema requiring text fails with
a missing-field error on text, although length itself would type-check. -/
theorem validate_required_first_witness :
    pyTagSchema.required.find? (fun r => !(hasKey [("length", PyVal.int 5)] r)) = some "text" ∧
      pyTagSchema.validate [("length", PyVal.int 5)] = .error (.missingField "text") :=
  ⟨by decide, validate_required_first pyTagSchema [("length", PyVal.int 5)] "text" (by decide)⟩

/-- A data item that passes all its per-field checks is skipped by the
field loop. -/
theorem checkFields_cons_ok (s : Schema) (n : String) (v : PyVal) (rest : PyDict)
    (h : entryOk s n v = true) :
    checkFields s ((n, v) :: rest) = checkFields s rest := by
  unfold entryOk at h
  conv_lhs => rw [checkFields]
  cases hf : lookupDict s.fields n with
  | none => simp [hf] at h
  | some tag =>
    simp only [hf] at h ⊢
    cases ht : evalType tag with
    | none => simp [ht] at h
    | some ty =>
      simp only [ht] at h ⊢
      cases hty : isinstance v ty with
      | false => simp [hty] at h
      | true =>
        simp only [hty, if_true] at h ⊢
        cases hval : lookupDict s.validators n with
        | none => simp [hval]
        | some g =>
          simp only [hval] at h ⊢
          cases hgv : g v with
          | bool b =>
            cases b with
            | false => simp [hgv] at h
            | true => simp [hgv]
          | none => simp [hgv]
          | int m => simp [hgv]
          | str st => simp [hgv]
          | list xs => simp [hgv]
          | dict xs => simp [hgv]

/-- A prefix of passing data items is skipped by the field loop. -/
theorem checkFields_append_ok (s : Schema) (l : PyDict) :
    ∀ (pre : PyDict), (∀ x ∈ pre, entryOk s x.1 x.2 = true) →
      checkFields s (pre ++ l) = checkFields s l := by
  intro pre
  induction pre with
  | nil => intro _; rfl
  | cons x xs ih =>
    intro hall
    obtain ⟨n, v⟩ := x
    rw [List.cons_append,
      checkFields_cons_ok s n v (xs ++ l) (hall (n, v) (List.mem_cons_self _ _))]
    exact ih (fun y hy => hall y (List.mem_cons_of_mem _ hy))

/-- The field loop raises the custom-validation error on an item whose
validator returns the literal False. -/
theorem checkFields_custom_false (s : Schema) (f : String) (v : PyVal) (rest : PyDict)
    (tag : String) (ty : PyType) (g : PyVal → PyVal)
    (hf : lookupDict s.fields f = some tag) (htag : evalType tag = some ty)
    (hty : isinstance v ty = true) (hg : lookupDict s.validators f = some g)
    (hgv : g v = .bool false) :
    checkFields s ((f, v) :: rest) = .error (.customFailed f) := by
  conv_lhs => rw [checkFields]
  simp [hf, htag, hty, hg, hgv]

/-- C7 amended: for every field that has an associated validator
predicate, validation fails with a custom-validation error exactly when
the predicate returns the literal False for the field's value (the source
tests validator_result is False); an earlier prefix of passing items and a
satisfied required-check are the fail-fast order conditions. Predicates
returning other falsy values do not fail (see the counterexample). -/
theorem validate_custom_literal_false (s : Schema) (pre : PyDict) (f : String)
    (v : PyVal) (rest : PyDict) (tag : String) (ty : PyType) (g : PyVal → PyVal)
    (hreq : checkRequired s.required (pre ++ (f, v) :: rest) = .ok ())
    (hpre : ∀ x ∈ pre, entryOk s x.1 x.2 = true)
    (hf : lookupDict s.fields f = some tag) (htag : evalType tag = some ty)
    (hty : isinstance v ty = true) (hg : lookupDict s.validators f = some g)
    (hgv : g v = .bool false) :
    s.validate (pre ++ (f, v) :: rest) = .error (.customFailed f) := by
  have hcf : checkFields s (pre ++ (f, v) :: rest) = .error (.customFailed f) := by
    rw [checkFields_append_ok s ((f, v) :: rest) pre hpre]
    exact checkFields_custom_false s f v rest tag ty g hf htag hty hg hgv
  simp only [Schema.validate]
  rw [hreq, hcf]
  rfl

/-- C7 witness: the spec's example, length=-1 against the positivity
validator, fails with the custom-validation error. -/
theorem validate_custom_false_witness :
    lengthPositive (PyVal.int (-1)) = PyVal.bool false ∧
      exSchemaIn.validate [("text", PyVal.str "hello"), ("length", PyVal.int (-1))] =
        .error (.customFailed "length") := by
  refine ⟨rfl, ?_⟩
  exact validate_custom_literal_false exSchemaIn [("text", PyVal.str "hello")] "length"
    (PyVal.int (-1)) [] "int" PyType.int lengthPositive rfl (by decide) rfl rfl rfl rfl rfl

/-- C7 counterexample: a validator returning the falsy value 0 (not the
literal False) for field length does not make validation fail: the payload
validates successfully, refuting the any-falsy-result reading. -/
theorem falsy_not_false_passes :
    falsySchema.validate specData = .ok true ∧
      zeroValidator (PyVal.int 5) = PyVal.int 0 ∧ pyFalsy (PyVal.int 0) = true :=
  ⟨rfl, rfl, rfl⟩

/-- C2: for every queue call whose input data fails validation against the
resolved version's input schema, the call fails with the validation error
and the store is returned exactly as it was, in particular its job
collection: no job record is produced (validate-before-create). -/
theorem queue_invalid_input_no_job (s : FeatureStore) (ds name : String)
    (input : PyDict) (vid : Option String) (jid : String) (now : Nat)
    (enr : EnrichmentDefinition) (v : EnrichmentVersion) (e : ValError)
    (henr : lookupDict s.enrichments name = some enr)
    (hver : resolveVersion enr name vid = .ok v)
    (hval : v.input_schema.validate input = .error e) :
    s.queue_job ds name input vid jid now = (.error (.validation e), s) := by
  simp [FeatureStore.queue_job, henr, hver, hval]

/-- C2 witness: queuing input missing the required text field fails with
the missing-field error and leaves the store untouched. -/
theorem queue_invalid_input_no_job_witness :
    resolveVersion exEnr "test" Option.none = .ok exVer2 ∧
      exVer2.input_schema.validate [("length", PyVal.int 9)] =
        .error (.missingField "text") ∧
      exStore.queue_job "ds" "test" [("length", PyVal.int 9)] Option.none "j-new" 3 =
        (.error (.validation (.missingField "text")), exStore) :=
  ⟨rfl, rfl,
    queue_invalid_input_no_job exStore "ds" "test" [("length", PyVal.int 9)]
      Option.none "j-new" 3 exEnr exVer2 (.missingField "text") rfl rfl rfl⟩

/-- C4: evaluating create_version on the failing input: with the
enrichment registered, the call does not return a new version and append
it as the claim (and the repository's own test_store.py::test_create_version)
expects; it raises TypeError, because store.py calls
EnrichmentVersion.create with keyword arguments that core.py's
create(cls, config) does not accept. The not-registered direction of the
claim does hold: an unknown name fails with the not-found error. -/
theorem create_version_kwargs_bug :
    FeatureStore.create_version exStore "test" "Test prompt" "test-model" []
        exSchemaIn exSchemaOut Option.none =
      (.error .createKwargsTypeError, exStore) ∧
    FeatureStore.create_version exStore "missing" "Test prompt" "test-model" []
        exSchemaIn exSchemaOut Option.none =
      (.error (.enrichmentNotFound "missing"), exStore) :=
  ⟨rfl, rfl⟩

/-- C8: get_latest_version returns the entry at the highest index of the
append-ordered version list (none when the list is empty), and a queue
call with version_id omitted resolves its job's target to exactly that
latest version. -/
theorem latest_version_highest_index :
    (∀ (d : EnrichmentDefinition),
        d.get_latest_version = d.versions[d.versions.length - 1]?) ∧
    (∀ (d : EnrichmentDefinition), d.versions = [] →
        d.get_latest_version = Option.none) ∧
    (∀ (s : FeatureStore) (ds name : String) (input : PyDict) (jid : String)
        (now : Nat) (enr : EnrichmentDefinition) (v : EnrichmentVersion) (b : Bool),
        lookupDict s.enrichments name = some enr →
        enr.get_latest_version = some v →
        v.input_schema.validate input = .ok b →
        (s.queue_job ds name input Option.none jid now).1 =
            .ok (EnrichmentJob.create ds name v.version_id input jid now) ∧
          (EnrichmentJob.create ds name v.version_id input jid now).enrichment_version =
            v.version_id) := by
  refine ⟨?_, ?_, ?_⟩
  · intro d
    exact List.getLast?_eq_getElem? d.versions
  · intro d h
    rw [EnrichmentDefinition.get_latest_version, h]
    rfl
  · intro s ds name input jid now enr v b henr hlat hval
    constructor
    · simp [FeatureStore.queue_job, resolveVersion, henr, hlat, hval]
    · rfl

/-- C8 witness: after appending v1 then v2, the latest version is v2 and a
queue call without version id targets v2. -/
theorem latest_version_highest_index_witness :
    exEnr.get_latest_version = some exVer2 ∧
      (exStore.queue_job "ds" "test" [("text", PyVal.str "ok")] Option.none "j1" 4).1 =
        .ok (EnrichmentJob.create "ds" "test" exVer2.version_id
          [("text", PyVal.str "ok")] "j1" 4) :=
  ⟨rfl,
    (latest_version_highest_index.2.2 exStore "ds" "test" [("text", PyVal.str "ok")]
      "j1" 4 exEnr exVer2 true rfl rfl rfl).1⟩

/-- Splitting lemma: applying the per-job computation to the first
matching job in the list. -/
theorem updateFirst_found (p : EnrichmentJob → Bool)
    (g : EnrichmentJob → Except TornoError (Option EnrichmentJob) × EnrichmentJob) :
    ∀ (pre : List EnrichmentJob) (j : EnrichmentJob) (post : List EnrichmentJob),
      (∀ x ∈ pre, p x = false) → p j = true →
      updateFirst p g (pre ++ j :: post) = ((g j).1, pre ++ (g j).2 :: post) := by
  intro pre
  induction pre with
  | nil =>
    intro j post hpre hj
    simp [updateFirst, hj]
  | cons x xs ih =>
    intro j post hpre hj
    rw [List.cons_append]
    unfold updateFirst
    rw [hpre x (List.mem_cons_self _ _)]
    simp only [Bool.false_eq_true, if_false]
    rw [ih j post (fun y hy => hpre y (List.mem_cons_of_mem _ hy)) hj]
    simp

/-- The status step never changes the job's enrichment reference. -/
theorem applyStatus_enrichment_name (j : EnrichmentJob) (st : Option JobStatus)
    (now : Nat) : (applyStatus j st now).enrichment_name = j.enrichment_name := by
  cases st with
  | none => rfl
  | some s => cases s <;> rfl

/-- The status step never changes the job's version reference. -/
theorem applyStatus_enrichment_version (j : EnrichmentJob) (st : Option JobStatus)
    (now : Nat) : (applyStatus j st now).enrichment_version = j.enrichment_version := by
  cases st with
  | none => rfl
  | some s => cases s <;> rfl

/-- The status step never changes the job's stored result. -/
theorem applyStatus_result (j : EnrichmentJob) (st : Option JobStatus)
    (now : Nat) : (applyStatus j st now).result = j.result := by
  cases st with
  | none => rfl
  | some s => cases s <;> rfl

/-- The status step never changes the job's stored error text. -/
theorem applyStatus_error (j : EnrichmentJob) (st : Option JobStatus)
    (now : Nat) : (applyStatus j st now).error = j.error := by
  cases st with
  | none => rfl
  | some s => cases s <;> rfl

/-- The error step never changes the job's stored result. -/
theorem applyError_result (j : EnrichmentJob) (e : Option String) :
    (applyError j e).result = j.result := by
  cases e <;> rfl

/-- update_job on a store whose job list contains a first match for the id.
-/
theorem update_job_found (s : FeatureStore) (jid : String)
    (pre : List EnrichmentJob) (j : EnrichmentJob) (post : List EnrichmentJob)
    (st : Option JobStatus) (res : Option PyDict) (err : Option String) (now : Nat)
    (hjobs : s.jobs = pre ++ j :: post)
    (hpre : ∀ x ∈ pre, (x.job_id == jid) = false)
    (hj : (j.job_id == jid) = true) :
    s.update_job jid st res err now =
      ((updateSteps s.enrichments st res err now j).1,
        { s with jobs := pre ++ (updateSteps s.enrichments st res err now j).2 :: post }) := by
  unfold FeatureStore.update_job
  rw [hjobs, updateFirst_found _ _ pre j post hpre hj]

/-- When the result step succeeds, update_job commits the error-step
output of its job and returns it. -/
theorem updateSteps_of_result_ok (enrichments : List (String × EnrichmentDefinition))
    (st : Option JobStatus) (res : Option PyDict) (err : Option String) (now : Nat)
    (j j2 : EnrichmentJob)
    (h : applyResult enrichments (applyStatus j st now) res = .ok j2) :
    updateSteps enrichments st res err now j =
      (.ok (some (applyError j2 err)), applyError j2 err) := by
  unfold updateSteps
  simp only [h]

/-- When the result step raises, update_job has already committed the
status-step mutation of its job. -/
theorem updateSteps_of_result_error (enrichments : List (String × EnrichmentDefinition))
    (st : Option JobStatus) (res : Option PyDict) (err : Option String) (now : Nat)
    (j : EnrichmentJob) (e : TornoError)
    (h : applyResult enrichments (applyStatus j st now) res = .error e) :
    updateSteps enrichments st res err now j = (.error e, applyStatus j st now) := by
  unfold updateSteps
  simp only [h]

/-- Result step, version found and output valid: the result is stored. -/
theorem applyResult_valid (enrichments : List (String × EnrichmentDefinition))
    (j : EnrichmentJob) (r : PyDict) (enr : EnrichmentDefinition)
    (ver : EnrichmentVersion) (b : Bool)
    (henr : lookupDict enrichments j.enrichment_name = some enr)
    (hver : enr.get_version j.enrichment_version = some ver)
    (hval : ver.output_schema.validate r = .ok b) :
    applyResult enrichments j (some r) = .ok { j with result := some r } := by
  simp [applyResult, henr, hver, hval]

/-- Result step, version not found: the result is stored with no
validation at all. -/
theorem applyResult_no_version (enrichments : List (String × EnrichmentDefinition))
    (j : EnrichmentJob) (r : PyDict) (enr : EnrichmentDefinition)
    (henr : lookupDict enrichments j.enrichment_name = some enr)
    (hver : enr.get_version j.enrichment_version = Option.none) :
    applyResult enrichments j (some r) = .ok { j with result := some r } := by
  simp [applyResult, henr, hver]

/-- Result step, version found and output invalid: the validation error
propagates and the result is not stored. -/
theorem applyResult_invalid (enrichments : List (String × EnrichmentDefinition))
    (j : EnrichmentJob) (r : PyDict) (enr : EnrichmentDefinition)
    (ver : EnrichmentVersion) (e : ValError)
    (henr : lookupDict enrichments j.enrichment_name = some enr)
    (hver : enr.get_version j.enrichment_version = some ver)
    (hval : ver.output_schema.validate r = .error e) :
    applyResult enrichments j (some r) = .error (.validation e) := by
  simp [applyResult, henr, hver, hval]

/-- C9: queuing valid input yields a PENDING job with null started_at and
completed_at; updating a job's status to RUNNING stores the job with
started_at stamped to the current time; updating to COMPLETED with a valid
result stamps completed_at and stores the result; updating to FAILED
stamps completed_at. -/
theorem job_lifecycle_spec :
    (∀ (s : FeatureStore) (ds name : String) (input : PyDict) (vid : Option String)
        (jid : String) (now : Nat) (enr : EnrichmentDefinition)
        (v : EnrichmentVersion) (b : Bool),
        lookupDict s.enrichments name = some enr →
        resolveVersion enr name vid = .ok v →
        v.input_schema.validate input = .ok b →
        (s.queue_job ds name input vid jid now).1 =
            .ok (EnrichmentJob.create ds name v.version_id input jid now) ∧
          (EnrichmentJob.create ds name v.version_id input jid now).status = .pending ∧
          (EnrichmentJob.create ds name v.version_id input jid now).started_at =
            Option.none ∧
          (EnrichmentJob.create ds name v.version_id input jid now).completed_at =
            Option.none) ∧
    (∀ (s : FeatureStore) (jid : String) (pre : List EnrichmentJob)
        (j : EnrichmentJob) (post : List EnrichmentJob) (now : Nat),
        s.jobs = pre ++ j :: post →
        (∀ x ∈ pre, (x.job_id == jid) = false) →
        (j.job_id == jid) = true →
        s.update_job jid (some .running) Option.none Option.none now =
          (.ok (some { j with status := .running, started_at := some now }),
            { s with jobs :=
              pre ++ { j with status := .running, started_at := some now } :: post })) ∧
    (∀ (s : FeatureStore) (jid : String) (pre : List EnrichmentJob)
        (j : EnrichmentJob) (post : List EnrichmentJob) (now : Nat) (r : PyDict)
        (enr : EnrichmentDefinition) (ver : EnrichmentVersion) (b : Bool),
        s.jobs = pre ++ j :: post →
        (∀ x ∈ pre, (x.job_id == jid) = false) →
        (j.job_id == jid) = true →
        lookupDict s.enrichments j.enrichment_name = some enr →
        enr.get_version j.enrichment_version = some ver →
        ver.output_schema.validate r = .ok b →
        s.update_job jid (some .completed) (some r) Option.none now =
          (.ok (some { j with
                        status := .completed, completed_at := some now,
                        result := some r }),
            { s with jobs := pre ++ { j with
                                       status := .completed,
                                       completed_at := some now,
                                       result := some r } :: post })) ∧
    (∀ (s : FeatureStore) (jid : String) (pre : List EnrichmentJob)
        (j : EnrichmentJob) (post : List EnrichmentJob) (now : Nat),
        s.jobs = pre ++ j :: post →
        (∀ x ∈ pre, (x.job_id == jid) = false) →
        (j.job_id == jid) = true →
        s.update_job jid (some .failed) Option.none Option.none now =
          (.ok (some { j with status := .failed, completed_at := some now }),
            { s with jobs :=
              pre ++ { j with status := .failed, completed_at := some now } :: post })) := by
  refine ⟨?_, ?_, ?_, ?_⟩
  · intro s ds name input vid jid now enr v b henr hver hval
    refine ⟨?_, rfl, rfl, rfl⟩
    simp [FeatureStore.queue_job, henr, hver, hval]
  · intro s jid pre j post now hjobs hpre hj
    rw [update_job_found s jid pre j post _ _ _ now hjobs hpre hj]
    rw [updateSteps_of_result_ok s.enrichments (some .running) Option.none Option.none
      now j (applyStatus j (some .running) now) rfl]
    rfl
  · intro s jid pre j post now r enr ver b hjobs hpre hj henr hver hval
    rw [update_job_found s jid pre j post _ _ _ now hjobs hpre hj]
    have henr1 : lookupDict s.enrichments
        (applyStatus j (some .completed) now).enrichment_name = some enr := by
      rw [applyStatus_enrichment_name]
      exact henr
    have hver1 : enr.get_version
        (applyStatus j (some .completed) now).enrichment_version = some ver := by
      rw [applyStatus_enrichment_version]
      exact hver
    rw [updateSteps_of_result_ok _ _ _ _ _ _ _
      (applyResult_valid s.enrichments _ r enr ver b henr1 hver1 hval)]
    rfl
  · intro s jid pre j post now hjobs hpre hj
    rw [update_job_found s jid pre j post _ _ _ now hjobs hpre hj]
    rw [updateSteps_of_result_ok s.enrichments (some .failed) Option.none Option.none
      now j (applyStatus j (some .failed) now) rfl]
    rfl

/-- C9 witness: the full lifecycle on the concrete store: queue yields a
pending job, RUNNING stamps started_at=5, COMPLETED with a valid result
stamps completed_at=6 and stores the result, FAILED stamps completed_at=7.
-/
theorem job_lifecycle_spec_witness :
    (exStore.queue_job "ds" "test"
        [("text", PyVal.str "test text"), ("length", PyVal.int 9)]
        Option.none "j1" 4).1 =
      .ok (EnrichmentJob.create "ds" "test" "v2"
        [("text", PyVal.str "test text"), ("length", PyVal.int 9)] "j1" 4) ∧
    (EnrichmentJob.create "ds" "test" "v2"
        [("text", PyVal.str "test text"), ("length", PyVal.int 9)] "j1" 4).status =
      JobStatus.pending ∧
    exStoreJ.update_job "job-1" (some .running) Option.none Option.none 5 =
      (.ok (some { exJob with status := .running, started_at := some 5 }),
        { exStoreJ with jobs := [{ exJob with status := .running, started_at := some 5 }] }) ∧
    exStoreJ.update_job "job-1" (some .completed)
        (some [("key_points", PyVal.list [PyVal.str "point1"]), ("summary", PyVal.str "test")])
        Option.none 6 =
      (.ok (some { exJob with
                    status := .completed, completed_at := some 6,
                    result := some [("key_points", PyVal.list [PyVal.str "point1"]),
                      ("summary", PyVal.str "test")] }),
        { exStoreJ with jobs := [{ exJob with
                                    status := .completed, completed_at := some 6,
                                    result := some [("key_points", PyVal.list [PyVal.str "point1"]),
                                      ("summary", PyVal.str "test")] }] }) ∧
    exStoreJ.update_job "job-1" (some .failed) Option.none Option.none 7 =
      (.ok (some { exJob with status := .failed, completed_at := some 7 }),
        { exStoreJ with jobs := [{ exJob with status := .failed, completed_at := some 7 }] }) := by
  refine ⟨?_, rfl, ?_, ?_, ?_⟩
  · exact (job_lifecycle_spec.1 exStore "ds" "test"
      [("text", PyVal.str "test text"), ("length", PyVal.int 9)] Option.none "j1" 4
      exEnr exVer2 true rfl rfl rfl).1
  · exact job_lifecycle_spec.2.1 exStoreJ "job-1" [] exJob [] 5 rfl (by simp) rfl
  · exact job_lifecycle_spec.2.2.1 exStoreJ "job-1" [] exJob [] 6
      [("key_points", PyVal.list [PyVal.str "point1"]), ("summary", PyVal.str "test")]
      exEnr exVer2 true rfl (by simp) rfl rfl rfl rfl
  · exact job_lifecycle_spec.2.2.2 exStoreJ "job-1" [] exJob [] 7 rfl (by simp) rfl

/-- C10: when update_job is called with a result for an existing job whose
recorded enrichment_version matches no version of the named enrichment,
the call succeeds and the result — any result whatsoever — is stored on
the job with no output-schema validation applied. -/
theorem result_stored_without_validation (s : FeatureStore) (jid : String)
    (pre : List EnrichmentJob) (j : EnrichmentJob) (post : List EnrichmentJob)
    (now : Nat) (status : Option JobStatus) (errArg : Option String) (r : PyDict)
    (enr : EnrichmentDefinition)
    (hjobs : s.jobs = pre ++ j :: post)
    (hpre : ∀ x ∈ pre, (x.job_id == jid) = false)
    (hj : (j.job_id == jid) = true)
    (henr : lookupDict s.enrichments j.enrichment_name = some enr)
    (hver : enr.get_version j.enrichment_version = Option.none) :
    s.update_job jid status (some r) errArg now =
      (.ok (some (applyError { applyStatus j status now with result := some r } errArg)),
        { s with jobs :=
          pre ++ applyError { applyStatus j status now with result := some r } errArg :: post }) ∧
    (applyError { applyStatus j status now with result := some r } errArg).result = some r := by
  constructor
  · rw [update_job_found s jid pre j post status (some r) errArg now hjobs hpre hj]
    have henr1 : lookupDict s.enrichments (applyStatus j status now).enrichment_name =
        some enr := by
      rw [applyStatus_enrichment_name]
      exact henr
    have hver1 : enr.get_version (applyStatus j status now).enrichment_version =
        Option.none := by
      rw [applyStatus_enrichment_version]
      exact hver
    rw [updateSteps_of_result_ok _ _ _ _ _ _ _
      (applyResult_no_version s.enrichments _ r enr henr1 hver1)]
  · rw [applyError_result]

/-- C10 witness: a result that would fail the output schema is stored
as-is on the job whose version id is dangling. -/
theorem result_stored_without_validation_witness :
    exEnr.get_version "ghost" = Option.none ∧
    exVer2.output_schema.validate [("bogus", PyVal.int 1)] =
      .error (.missingField "key_points") ∧
    exStoreG.update_job "job-2" Option.none (some [("bogus", PyVal.int 1)])
        Option.none 9 =
      (.ok (some { exJobGhost with result := some [("bogus", PyVal.int 1)] }),
        { exStoreG with
          jobs := [{ exJobGhost with result := some [("bogus", PyVal.int 1)] }] }) := by
  refine ⟨rfl, rfl, ?_⟩
  exact (result_stored_without_validation exStoreG "job-2" [] exJobGhost [] 9
    Option.none Option.none [("bogus", PyVal.int 1)] exEnr rfl (by simp) rfl rfl rfl).1

/-- C5 amended: when the supplied result fails the referenced version's
output schema, the failure is surfaced to the caller and the result and
error fields of the job are left as they were; but a status supplied in
the same call has already been applied (with its timestamp stamping)
before validation runs and persists in the store; only when no status was
supplied is the job record fully unchanged. -/
theorem update_invalid_result_partial (s : FeatureStore) (jid : String)
    (pre : List EnrichmentJob) (j : EnrichmentJob) (post : List EnrichmentJob)
    (now : Nat) (status : Option JobStatus) (errArg : Option String) (r : PyDict)
    (enr : EnrichmentDefinition) (ver : EnrichmentVersion) (e : ValError)
    (hjobs : s.jobs = pre ++ j :: post)
    (hpre : ∀ x ∈ pre, (x.job_id == jid) = false)
    (hj : (j.job_id == jid) = true)
    (henr : lookupDict s.enrichments j.enrichment_name = some enr)
    (hver : enr.get_version j.enrichment_version = some ver)
    (hval : ver.output_schema.validate r = .error e) :
    s.update_job jid status (some r) errArg now =
      (.error (.validation e), { s with jobs := pre ++ applyStatus j status now :: post }) ∧
    (applyStatus j status now).result = j.result ∧
    (applyStatus j status now).error = j.error ∧
    (status = Option.none → applyStatus j status now = j) := by
  refine ⟨?_, applyStatus_result j status now, applyStatus_error j status now, ?_⟩
  · rw [update_job_found s jid pre j post status (some r) errArg now hjobs hpre hj]
    have henr1 : lookupDict s.enrichments (applyStatus j status now).enrichment_name =
        some enr := by
      rw [applyStatus_enrichment_name]
      exact henr
    have hver1 : enr.get_version (applyStatus j status now).enrichment_version =
        some ver := by
      rw [applyStatus_enrichment_version]
      exact hver
    rw [updateSteps_of_result_error _ _ _ _ _ _ _
      (applyResult_invalid s.enrichments _ r enr ver e henr1 hver1 hval)]
  · intro h
    subst h
    rfl

/-- C5 counterexample: updating a pending job to COMPLETED together with
an invalid result raises the validation error, yet the stored job's
status has become COMPLETED and its completed_at has been stamped — the
job record is not left as it was before the call. -/
theorem update_invalid_result_mutates :
    (exStoreJ.update_job "job-1" (some .completed) (some [("bogus", PyVal.int 1)])
        Option.none 7).1 =
      .error (.validation (.missingField "key_points")) ∧
    ((exStoreJ.update_job "job-1" (some .completed) (some [("bogus", PyVal.int 1)])
        Option.none 7).2.jobs.map (fun j => j.status)) = [JobStatus.completed] ∧
    (exStoreJ.jobs.map (fun j => j.status)) = [JobStatus.pending] ∧
    ((exStoreJ.update_job "job-1" (some .completed) (some [("bogus", PyVal.int 1)])
        Option.none 7).2.jobs.map (fun j => j.completed_at)) = [some 7] ∧
    (exStoreJ.jobs.map (fun j => j.completed_at)) = [Option.none] :=
  ⟨rfl, rfl, rfl, rfl, rfl⟩

/-- C5 witness: the amended behavior on the concrete store: the error is
surfaced, the status mutation persists, and the result field is
unchanged. -/
theorem update_invalid_result_partial_witness :
    exVer2.output_schema.validate [("bogus", PyVal.int 1)] =
      .error (.missingField "key_points") ∧
    exStoreJ.update_job "job-1" (some .completed) (some [("bogus", PyVal.int 1)])
        Option.none 7 =
      (.error (.validation (.missingField "key_points")),
        { exStoreJ with jobs := [applyStatus exJob (some .completed) 7] }) ∧
    (applyStatus exJob (some .completed) 7).result = exJob.result := by
  have h := update_invalid_result_partial exStoreJ "job-1" [] exJob [] 7
    (some .completed) Option.none [("bogus", PyVal.int 1)] exEnr exVer2
    (.missingField "key_points") rfl (by simp) rfl rfl rfl rfl
  exact ⟨rfl, h.1, h.2.1⟩
